import Mathlib

/-!
Verification of the document-ingestion pipeline of the
Docx-Ingestion-Engine-Azure repository.

The development shallowly embeds the three pipeline stages:

* `src/src/ingestion_engine/ingestion_processor.py` — the Ingestion
  Coordinator (`IngestionEngine.process_ingestion_message` and its helpers)
  over a Cosmos-DB-style document store with an `Emails` container and an
  `Attachments` container, plus a Service-Bus queue.
* `src/src/ocr_engine/ocr_processor.py` — the OCR stage
  (`OCREngine.process_ocr_message`) over the SQLAlchemy tables of
  `src/src/shared/models.py` (`ProcessingRecord`, `OCRResult`).
* `src/src/ocr_engine/document_classifier.py` — the classification stage
  (`DocumentClassifier.process_classification_message`) over the same
  tables (`DocumentClassification`).

Modelling conventions:

* Containers/tables are association lists; the Cosmos `upsert_item` is a
  replace-by-id-or-append on the list, SQLAlchemy `session.add` is an
  append, and `query(...).filter_by(...).first()` is `List.find?`.
* Timestamps (`datetime.utcnow().isoformat()`) are a `Nat` parameter
  `now`; the several `utcnow()` calls inside one handler are collapsed to
  one value, which no claim distinguishes.
* Python string falsiness (`if not x:` on a possibly-missing string) is
  the `truthy` predicate on `Option String`; `a or b` on strings is
  `pyOr`.
* The external capabilities (blob download, text extraction, the OpenAI
  call) are function parameters; an exception raised by a capability is
  its `Option`/`Except` failure value.  Exceptions that the Python code
  catches and converts to a boolean are modelled by returning that
  boolean with the writes already performed kept in the state.
* JSON numbers that the code only ever passes through `str(...)` before
  persisting (confidence values) are carried as their decimal string;
  the entities list, which the code only passes through `json.dumps`,
  is carried as its serialized JSON string.
-/

/-! ### Decimal-representation helpers

`Nat.toString` has no injectivity lemma in the library; the attachment
document ids of the coordinator are built as `f"{email_id}-{i+1}"`, so
key-distinctness of sibling attachments needs one.  `digitsVal` evaluates
a digit string back to the number. -/

def digitVal (c : Char) : Nat := c.toNat - 48

def digitsVal (l : List Char) : Nat := l.foldl (fun a c => 10 * a + digitVal c) 0

theorem digitsVal_foldl_acc (l : List Char) : ∀ a : Nat,
    l.foldl (fun a c => 10 * a + digitVal c) a = a * 10 ^ l.length + digitsVal l := by
  induction l with
  | nil => intro a; simp [digitsVal]
  | cons c t ih =>
      intro a
      simp only [List.foldl_cons, List.length_cons, digitsVal]
      rw [ih (10 * a + digitVal c), ih (10 * 0 + digitVal c)]
      ring

theorem digitVal_digitChar (k : Nat) (hk : k < 10) : digitVal (Nat.digitChar k) = k := by
  interval_cases k <;> rfl

theorem toDigitsCore_val (fuel : Nat) : ∀ (n : Nat) (ds : List Char), n < 10 ^ fuel →
    digitsVal (Nat.toDigitsCore 10 fuel n ds) = n * 10 ^ ds.length + digitsVal ds := by
  induction fuel with
  | zero =>
      intro n ds hn
      simp only [pow_zero, Nat.lt_one_iff] at hn
      subst hn
      simp [Nat.toDigitsCore]
  | succ fuel ih =>
      intro n ds hn
      simp only [Nat.toDigitsCore]
      by_cases h : n / 10 = 0
      · simp only [h, if_true]
        have hn10 : n < 10 := by omega
        simp only [digitsVal, List.foldl_cons]
        rw [digitsVal_foldl_acc]
        rw [digitVal_digitChar (n % 10) (Nat.mod_lt _ (by norm_num))]
        have hmod : n % 10 = n := Nat.mod_eq_of_lt hn10
        rw [hmod]
        simp [digitsVal]
      · simp only [h, if_false]
        have hlt : n / 10 < 10 ^ fuel := by
          rw [Nat.div_lt_iff_lt_mul (by norm_num)]
          calc n < 10 ^ (fuel + 1) := hn
            _ = 10 ^ fuel * 10 := by ring
        rw [ih (n / 10) (Nat.digitChar (n % 10) :: ds) hlt]
        simp only [List.length_cons, digitsVal, List.foldl_cons]
        rw [digitsVal_foldl_acc]
        rw [digitVal_digitChar (n % 10) (Nat.mod_lt _ (by norm_num))]
        have hsplit : 10 * (n / 10) + n % 10 = n := Nat.div_add_mod n 10
        calc n / 10 * 10 ^ (ds.length + 1) + ((10 * 0 + n % 10) * 10 ^ ds.length + digitsVal ds)
            = (10 * (n / 10) + n % 10) * 10 ^ ds.length + digitsVal ds := by ring
          _ = n * 10 ^ ds.length + digitsVal ds := by rw [hsplit]

theorem n_lt_ten_pow (n : Nat) : n < 10 ^ (n + 1) := by
  calc n < 2 ^ n := Nat.lt_two_pow n
    _ ≤ 10 ^ n := Nat.pow_le_pow_left (by norm_num) n
    _ ≤ 10 ^ (n + 1) := Nat.pow_le_pow_right (by norm_num) (Nat.le_succ n)

theorem digitsVal_toString (n : Nat) : digitsVal (toString n).data = n := by
  show digitsVal (Nat.toDigitsCore 10 (n + 1) n []) = n
  rw [toDigitsCore_val (n + 1) n [] (n_lt_ten_pow n)]
  simp [digitsVal]

theorem natToString_injective (a b : Nat) (h : toString a = toString b) : a = b := by
  have hv : digitsVal (toString a).data = digitsVal (toString b).data := by rw [h]
  rwa [digitsVal_toString, digitsVal_toString] at hv

theorem append_nat_inj (e : String) (a b : Nat) (h : e ++ toString a = e ++ toString b) :
    a = b := by
  apply natToString_injective
  have hd : (e ++ toString a).data = (e ++ toString b).data := by rw [h]
  rw [String.data_append, String.data_append] at hd
  exact String.ext (List.append_cancel_left hd)

/-! ### Python-style option and string handling -/

/-- Python truthiness of an optional string value: `None` and the empty
string are falsy (`if not processing_id: return False`). -/
def truthy : Option String → Bool
  | none => false
  | some s => s != ""

/-- Python `a or b` for an optional string fallback, as in
`email_payload.get("id") or processing_id`: a missing or empty left
operand yields the fallback. -/
def pyOr (v : Option String) (dflt : String) : String :=
  match v with
  | none => dflt
  | some s => if s = "" then dflt else s

/-- The Python truthiness test of `s.strip()` used by the OCR stage
(`if extracted_text.strip():`): the stripped string is empty exactly
when every character of `s` is whitespace. -/
def pyStripEmpty (s : String) : Bool := s.data.all Char.isWhitespace

/-! ### The Cosmos document store

The ingestion coordinator keeps two containers (`Emails`, partitioned by
`/id`, and `Attachments`); each is modelled as an association list from
the document id to the document.  `upsert_item` replaces the document
with the same id or appends; `read_item` returns the document or fails
(the Cosmos SDK raises, which `process_ingestion_message` catches). -/

def upsertItem {α : Type} : List (String × α) → String → α → List (String × α)
  | [], key, doc => [(key, doc)]
  | kv :: rest, key, doc =>
      if kv.fst = key then (key, doc) :: rest else kv :: upsertItem rest key doc

def readItem {α : Type} : List (String × α) → String → Option α
  | [], _ => none
  | kv :: rest, key => if kv.fst = key then some kv.snd else readItem rest key

def storeKeys {α : Type} (store : List (String × α)) : List String := store.map Prod.fst

/-! ### Ingestion coordinator data model (`ingestion_processor.py`) -/

/-- One entry of the `attachments` list of an EMAIL intake message
(`{"uri": ..., "filename": ...}`); either key may be absent. -/
structure Attachment where
  uri : Option String := none
  filename : Option String := none
deriving DecidableEq, Repr

/-- The `email` payload of an EMAIL intake message. -/
structure EmailPayload where
  id : Option String := none
  fromAddr : Option String := none
  toAddrs : List String := []
  cc : List String := []
  subject : Option String := none
  body : Option String := none
  date : Option String := none
  time : Option String := none
  email_uri : Option String := none
deriving DecidableEq, Repr

/-- The `file_metadata` payload of a FILE intake message. -/
structure FileMetadata where
  id : Option String := none
  filename : Option String := none
deriving DecidableEq, Repr

/-- A Service-Bus intake message as consumed by
`IngestionEngine.process_ingestion_message`; every field may be absent. -/
structure IntakeMessage where
  processing_id : Option String := none
  source_type : Option String := none
  email : Option EmailPayload := none
  attachments : Option (List Attachment) := none
  file_uri : Option String := none
  file_metadata : Option FileMetadata := none
deriving DecidableEq, Repr

/-- A master document of the `Emails` container.  EMAIL-sourced documents
populate the email metadata fields; FILE-sourced ones populate
`fileName`/`fileUri` (`_process_file_ingestion` stores files as
email-like master documents to keep two containers overall). -/
structure MasterDoc where
  id : String
  processingId : String
  sourceType : String
  fromAddr : Option String := none
  toAddrs : List String := []
  cc : List String := []
  subject : Option String := none
  body : Option String := none
  date : Option String := none
  time : Option String := none
  emailUri : Option String := none
  fileName : Option String := none
  fileUri : Option String := none
  attachmentCount : Nat
  status : String
  createdAt : Nat
  updatedAt : Nat
deriving DecidableEq, Repr

/-- A child document of the `Attachments` container, as written by
`_process_email_ingestion`. -/
structure AttachDoc where
  id : String
  emailId : String
  processingId : String
  attachmentNumber : Nat
  blobUrl : Option String
  fileName : String
deriving DecidableEq, Repr

/-- The message `_send_to_ocr_engine` places on `ocr-processing-queue`. -/
structure OcrQueueMessage where
  processing_id : String
  file_uri : Option String
  filename : String
  timestamp : Nat
  action : String
deriving DecidableEq, Repr

/-- The state the ingestion coordinator acts on: the two Cosmos
containers and the outgoing Service-Bus sends (queue name and payload,
in send order). -/
structure IngestionState where
  emails : List (String × MasterDoc) := []
  attachments : List (String × AttachDoc) := []
  queue : List (String × OcrQueueMessage) := []
deriving DecidableEq, Repr

/-- `CosmosDBService.upsert_email`. -/
def upsert_email (s : IngestionState) (doc : MasterDoc) : IngestionState :=
  { s with emails := upsertItem s.emails doc.id doc }

/-- `CosmosDBService.update_email_status`: read the master document with
this id (the SDK raises if it does not exist, modelled by `none`), set
its `status` and `updatedAt`, and upsert it back. -/
def update_email_status (s : IngestionState) (email_id status : String) (now : Nat) :
    Option IngestionState :=
  match readItem s.emails email_id with
  | none => none
  | some item =>
      let updated : MasterDoc := { item with status := status, updatedAt := now }
      some { s with emails := upsertItem s.emails email_id updated }

/-- `CosmosDBService.upsert_attachment`. -/
def upsert_attachment (s : IngestionState) (doc : AttachDoc) : IngestionState :=
  { s with attachments := upsertItem s.attachments doc.id doc }

/-- `send_to_service_bus` from `shared/utils.py`, specialised to the
coordinator: record the send. -/
def send_to_service_bus (s : IngestionState) (queueName : String) (msg : OcrQueueMessage) :
    IngestionState :=
  { s with queue := s.queue ++ [(queueName, msg)] }

/-- `IngestionEngine._send_to_ocr_engine` (leading underscore dropped):
build the OCR message and send it to `ocr-processing-queue`. -/
def send_to_ocr_engine (now : Nat) (s : IngestionState) (processing_id : String)
    (file_uri : Option String) (filename : String) : IngestionState :=
  send_to_service_bus s "ocr-processing-queue"
    { processing_id := processing_id, file_uri := file_uri, filename := filename,
      timestamp := now, action := "extract_text" }

/-- The deterministic attachment document id `f"{email_id}-{i+1}"`. -/
def attach_key (email_id : String) (num : Nat) : String :=
  email_id ++ "-" ++ toString num

/-- The attachment child document written for the 0-based position `i`
of the attachments list. -/
def mk_attach_doc (email_id processing_id : String) (i : Nat) (att : Attachment) : AttachDoc :=
  { id := attach_key email_id (i + 1)
  , emailId := email_id
  , processingId := processing_id
  , attachmentNumber := i + 1
  , blobUrl := att.uri
  , fileName := att.filename.getD ("attachment_" ++ toString (i + 1)) }

/-- The `for i, att in enumerate(attachments)` loop of
`_process_email_ingestion`: upsert the child document, then send the
attachment to the OCR engine; `i` is the 0-based enumeration index. -/
def process_attachments (now : Nat) (processing_id email_id : String) :
    Nat → List Attachment → IngestionState → IngestionState
  | _, [], s => s
  | i, att :: rest, s =>
      let doc := mk_attach_doc email_id processing_id i att
      let s1 := upsert_attachment s doc
      let s2 := send_to_ocr_engine now s1 processing_id att.uri doc.fileName
      process_attachments now processing_id email_id (i + 1) rest s2

/-- The master document `_process_email_ingestion` builds from the
message payload (`email_doc` in the source); its id is the email id of
the payload with the processing id as the fallback. -/
def email_master_doc (now : Nat) (processing_id : String) (message : IntakeMessage) :
    MasterDoc :=
  let email_payload := message.email.getD {}
  let attachments := message.attachments.getD []
  { id := pyOr email_payload.id processing_id, processingId := processing_id,
    sourceType := "email",
    fromAddr := email_payload.fromAddr, toAddrs := email_payload.toAddrs,
    cc := email_payload.cc, subject := email_payload.subject,
    body := email_payload.body, date := email_payload.date,
    time := email_payload.time, emailUri := email_payload.email_uri,
    fileName := none, fileUri := none,
    attachmentCount := attachments.length, status := "processing",
    createdAt := now, updatedAt := now }

/-- `IngestionEngine._process_email_ingestion` (leading underscore
dropped).  Writes the master document with `status = "processing"`; with
no attachments marks it `"completed"`, otherwise writes one child
document and one OCR send per attachment and marks it `"ocr_pending"`.
A failing `read_item` inside `update_email_status` would propagate to
the `except` of `process_ingestion_message`, which returns `False` with
the earlier writes kept. -/
def process_email_ingestion (now : Nat) (s : IngestionState) (processing_id : String)
    (message : IntakeMessage) : Bool × IngestionState :=
  let email_payload := message.email.getD {}
  let attachments := message.attachments.getD []
  let email_id := pyOr email_payload.id processing_id
  let email_doc := email_master_doc now processing_id message
  let s1 := upsert_email s email_doc
  if attachments.isEmpty then
    match update_email_status s1 email_id "completed" now with
    | some s2 => (true, s2)
    | none => (false, s1)
  else
    let s2 := process_attachments now processing_id email_id 0 attachments s1
    match update_email_status s2 email_id "ocr_pending" now with
    | some s3 => (true, s3)
    | none => (false, s2)

/-- `IngestionEngine._process_file_ingestion` (leading underscore
dropped): a missing or empty `file_uri` fails before any write;
otherwise the file is stored as an email-like master document, sent to
OCR once, and marked `"ocr_pending"`. -/
def process_file_ingestion (now : Nat) (s : IngestionState) (processing_id : String)
    (message : IntakeMessage) : Bool × IngestionState :=
  let file_metadata := message.file_metadata.getD {}
  if truthy message.file_uri then
    let file_doc_id := pyOr file_metadata.id processing_id
    let email_like_doc : MasterDoc :=
      { id := file_doc_id, processingId := processing_id, sourceType := "file",
        fileName := some (file_metadata.filename.getD "unknown"),
        fileUri := message.file_uri, attachmentCount := 0, status := "processing",
        createdAt := now, updatedAt := now }
    let s1 := upsert_email s email_like_doc
    let s2 := send_to_ocr_engine now s1 processing_id message.file_uri
      (file_metadata.filename.getD "unknown")
    match update_email_status s2 file_doc_id "ocr_pending" now with
    | some s3 => (true, s3)
    | none => (false, s2)
  else (false, s)

/-- `IngestionEngine.process_ingestion_message`: reject a message whose
`processing_id` is missing or empty, dispatch on `source_type`, and
reject unknown source types. -/
def process_ingestion_message (now : Nat) (s : IngestionState) (message : IntakeMessage) :
    Bool × IngestionState :=
  if truthy message.processing_id then
    let processing_id := message.processing_id.getD ""
    if message.source_type = some "email" then
      process_email_ingestion now s processing_id message
    else if message.source_type = some "file" then
      process_file_ingestion now s processing_id message
    else (false, s)
  else (false, s)

/-! ### OCR and classification stage data model (`models.py`,
`ocr_processor.py`, `document_classifier.py`)

The two downstream stages share a SQLAlchemy database.  Only the columns
the stage handlers read or write are carried. -/

/-- A row of `processing_records` (`ProcessingRecord` in `models.py`);
`id` is the autoincrement primary key, `unique_processing_id` the
unique external identifier the stages look records up by. -/
structure ProcessingRecord where
  id : Nat
  unique_processing_id : String
  source_type : String
  status : String
  num_attachments : Nat
  updated_at : Nat
deriving DecidableEq, Repr

/-- A row of `ocr_results` (`OCRResult` in `models.py`). -/
structure OCRResultRow where
  processing_record_id : Nat
  file_uri : String
  extracted_text : String
  confidence_score : String
  page_count : Nat
  processing_time_seconds : Nat
  status : String
deriving DecidableEq, Repr

/-- A row of `document_classifications` (`DocumentClassification` in
`models.py`).  `classification_confidence` is stored through `str(...)`
and `extracted_entities` through `json.dumps(...)`, so both are carried
as the resulting strings. -/
structure DocumentClassificationRow where
  processing_record_id : Nat
  file_uri : String
  document_type : String
  classification_confidence : String
  extracted_entities : String
  risk_assessment : String
  priority_level : String
deriving DecidableEq, Repr

/-- The message `_send_to_document_classifier` places on
`document-classification-queue`. -/
structure ClassifierQueueMessage where
  processing_id : String
  file_uri : String
  extracted_text : String
  timestamp : Nat
  action : String
deriving DecidableEq, Repr

/-- The state the OCR and classification stages act on: the three
tables plus the outgoing Service-Bus sends of the OCR stage. -/
structure PipelineDB where
  processing_records : List ProcessingRecord := []
  ocr_results : List OCRResultRow := []
  document_classifications : List DocumentClassificationRow := []
  queue : List (String × ClassifierQueueMessage) := []
deriving DecidableEq, Repr

/-- `session.query(ProcessingRecord).filter_by(unique_processing_id=...).first()`. -/
def find_processing_record (db : PipelineDB) (processing_id : String) :
    Option ProcessingRecord :=
  db.processing_records.find? (fun r => r.unique_processing_id == processing_id)

/-- `OCREngine._save_ocr_result` (leading underscore dropped): look the
parent record up; if it is missing, log and return without persisting;
otherwise insert an `OCRResult` row whose status is `"completed"` when
the extracted text is non-empty after `strip()` and `"failed"`
otherwise. -/
def save_ocr_result (db : PipelineDB) (processing_id file_uri extracted_text
    confidence_score : String) (page_count processing_time : Nat) : PipelineDB :=
  match find_processing_record db processing_id with
  | none => db
  | some r =>
      { db with ocr_results := db.ocr_results ++
          [{ processing_record_id := r.id, file_uri := file_uri,
             extracted_text := extracted_text, confidence_score := confidence_score,
             page_count := page_count, processing_time_seconds := processing_time,
             status := if pyStripEmpty extracted_text then "failed" else "completed" }] }

/-- `OCREngine._send_to_document_classifier` (leading underscore
dropped): skip entirely when the text strips to empty, otherwise send
the classification message with the text capped to its first 10000
characters. -/
def send_to_document_classifier (now : Nat) (db : PipelineDB)
    (processing_id file_uri extracted_text : String) : PipelineDB :=
  if pyStripEmpty extracted_text then db
  else
    { db with queue := db.queue ++
        [("document-classification-queue",
          { processing_id := processing_id, file_uri := file_uri,
            extracted_text := extracted_text.take 10000, timestamp := now,
            action := "classify_document" })] }

/-- An OCR-stage input message, as read by `process_ocr_message`. -/
structure OcrStageMessage where
  processing_id : Option String := none
  file_uri : Option String := none
  filename : Option String := none
deriving DecidableEq, Repr

/-- The external capabilities the OCR stage calls: `download` is
`_download_file_from_uri` (its failure raises, modelled by `none`);
`extract` is `_extract_text_from_file`, which catches every extraction
error and returns `("", "0.0", 0, elapsed)` instead of raising, so it
is total; its result is `(text, confidence, page_count, seconds)`. -/
structure OcrCapability where
  download : String → String → Option String
  extract : String → String → String × String × Nat × Nat

/-- `OCREngine.process_ocr_message`: reject a message with a missing or
empty `processing_id` or `file_uri`; a download failure is caught and
returns `False`; otherwise extract, persist the OCR result, send to the
classifier when text was found, and return `True`. -/
def process_ocr_message (cap : OcrCapability) (now : Nat) (db : PipelineDB)
    (message : OcrStageMessage) : Bool × PipelineDB :=
  let filename := message.filename.getD "unknown"
  if truthy message.processing_id && truthy message.file_uri then
    let processing_id := message.processing_id.getD ""
    let file_uri := message.file_uri.getD ""
    match cap.download file_uri filename with
    | none => (false, db)
    | some temp_path =>
        match cap.extract temp_path filename with
        | (extracted_text, confidence_score, page_count, processing_time) =>
            let db1 := save_ocr_result db processing_id file_uri extracted_text
              confidence_score page_count processing_time
            let db2 := send_to_document_classifier now db1 processing_id file_uri
              extracted_text
            (true, db2)
  else (false, db)

/-- The fate of a queue message in `OCRWorker.start_listening`:
`complete_message` on a `True` handler result, `abandon_message` on
`False`, `dead_letter_message` only when the loop body raises (which
for a parsed message it does not, since `process_ocr_message` catches
its exceptions and returns a boolean). -/
inductive MessageOutcome where
  | completed
  | abandoned
  | deadlettered
deriving DecidableEq, Repr

/-- The worker loop body of `OCRWorker.start_listening` for one parsed
message: ack on `True`, abandon on `False`; the dead-letter branch is
unreachable for a message whose body parsed. -/
def ocr_worker_outcome (cap : OcrCapability) (now : Nat) (db : PipelineDB)
    (message : OcrStageMessage) : MessageOutcome × PipelineDB :=
  match process_ocr_message cap now db message with
  | (success, db2) =>
      (if success then MessageOutcome.completed else MessageOutcome.abandoned, db2)

/-- The JSON object parsed from the model response in
`_classify_document`, reduced to the keys the stage reads.  Number
values are carried as their decimal strings (the stage persists them
through `str(...)`) and the entities list as its `json.dumps`
serialization. -/
structure ClassificationDict where
  document_type : Option String := none
  confidence : Option String := none
  entities : Option String := none
  risk_assessment : Option String := none
  priority : Option String := none
  error : Option String := none
deriving DecidableEq, Repr

/-- `DocumentClassifier._classify_document` (leading underscore
dropped): truncate the text to 8000 characters (appending "..."), call
the classification capability, and on any failure return the fallback
dictionary with `document_type` `"Unknown"` and `confidence` `0.0`
instead of raising. -/
def classify_document (classify : String → Except String ClassificationDict)
    (extracted_text : String) : ClassificationDict :=
  let text := if extracted_text.length > 8000
    then extracted_text.take 8000 ++ "..." else extracted_text
  match classify text with
  | Except.ok r => r
  | Except.error e =>
      { document_type := some "Unknown", confidence := some "0.0",
        entities := some "[]", risk_assessment := some "Unknown",
        priority := some "Low", error := some e }

/-- `DocumentClassifier._save_classification_result` (leading
underscore dropped): look the parent record up; if it is missing, log
and return without persisting; otherwise insert a
`DocumentClassification` row, defaulting every absent key. -/
def save_classification_result (db : PipelineDB) (processing_id file_uri : String)
    (result : ClassificationDict) : PipelineDB :=
  match find_processing_record db processing_id with
  | none => db
  | some r =>
      { db with document_classifications := db.document_classifications ++
          [{ processing_record_id := r.id, file_uri := file_uri,
             document_type := result.document_type.getD "Unknown",
             classification_confidence := result.confidence.getD "0.0",
             extracted_entities := result.entities.getD "[]",
             risk_assessment := result.risk_assessment.getD "Unknown",
             priority_level := result.priority.getD "Low" }] }

/-- Mutating the first row matching `unique_processing_id`, as the ORM
update in `_update_processing_status` does. -/
def set_status_first : List ProcessingRecord → String → String → Nat → List ProcessingRecord
  | [], _, _, _ => []
  | r :: rs, pid, st, now =>
      if r.unique_processing_id = pid
      then { r with status := st, updated_at := now } :: rs
      else r :: set_status_first rs pid st now

/-- `DocumentClassifier._update_processing_status` (leading underscore
dropped): set the status and `updated_at` of the record with this
processing id; when no record matches this is a logged no-op. -/
def update_processing_status (now : Nat) (db : PipelineDB)
    (processing_id status : String) : PipelineDB :=
  { db with processing_records :=
      set_status_first db.processing_records processing_id status now }

/-- A classification-stage input message, as read by
`process_classification_message`. -/
structure ClassificationStageMessage where
  processing_id : Option String := none
  file_uri : Option String := none
  extracted_text : Option String := none
deriving DecidableEq, Repr

/-- `DocumentClassifier.process_classification_message`: reject a
message with a missing or empty `processing_id` or `file_uri`; classify
(never raising), persist the result, then unconditionally set the
processing record status to `"completed"` and return `True`. -/
def process_classification_message (classify : String → Except String ClassificationDict)
    (now : Nat) (db : PipelineDB) (message : ClassificationStageMessage) :
    Bool × PipelineDB :=
  if truthy message.processing_id && truthy message.file_uri then
    let processing_id := message.processing_id.getD ""
    let file_uri := message.file_uri.getD ""
    let extracted_text := message.extracted_text.getD ""
    let result := classify_document classify extracted_text
    let db1 := save_classification_result db processing_id file_uri result
    let db2 := update_processing_status now db1 processing_id "completed"
    (true, db2)
  else (false, db)

/-- Modelled from the spec: the aggregation condition of section 4.3
step 4 — every sibling attachment of the unit has reached a terminal
OCR/classification state.  The source has no such check, so the
condition is rendered from the words of the spec: an attachment is
terminal when it has a persisted classification result or a persisted
failed OCR result, and the unit is sibling-terminal when at least
`num_attachments` of its attachments are terminal. -/
def spec_all_siblings_terminal (db : PipelineDB) (r : ProcessingRecord) : Prop :=
  r.num_attachments ≤
    (db.document_classifications.filter
        (fun c => c.processing_record_id == r.id)).length
      + (db.ocr_results.filter
          (fun o => o.processing_record_id == r.id && o.status == "failed")).length

instance (db : PipelineDB) (r : ProcessingRecord) :
    Decidable (spec_all_siblings_terminal db r) := by
  unfold spec_all_siblings_terminal; infer_instance

/-! ### Association-list store lemmas -/

theorem readItem_upsertItem_self {α : Type} (st : List (String × α)) (k : String) (d : α) :
    readItem (upsertItem st k d) k = some d := by
  induction st with
  | nil => simp [upsertItem, readItem]
  | cons kv rest ih =>
      by_cases h : kv.fst = k
      · simp [upsertItem, readItem, h]
      · simp [upsertItem, readItem, h, ih]

theorem readItem_upsertItem_ne {α : Type} (st : List (String × α)) (k q : String) (d : α)
    (h : q ≠ k) : readItem (upsertItem st k d) q = readItem st q := by
  induction st with
  | nil => simp [upsertItem, readItem, Ne.symm h]
  | cons kv rest ih =>
      by_cases hk : kv.fst = k
      · subst hk
        simp [upsertItem, readItem, Ne.symm h]
      · simp only [upsertItem, if_neg hk, readItem]
        by_cases hq : kv.fst = q
        · simp [hq]
        · simp [hq, ih]

/-- The key list of an upsert result, independent of the document. -/
def upsertKeyList : List String → String → List String
  | [], k => [k]
  | x :: xs, k => if x = k then x :: xs else x :: upsertKeyList xs k

theorem storeKeys_upsertItem {α : Type} (st : List (String × α)) (k : String) (d : α) :
    storeKeys (upsertItem st k d) = upsertKeyList (storeKeys st) k := by
  induction st with
  | nil => simp [upsertItem, storeKeys, upsertKeyList]
  | cons kv rest ih =>
      by_cases h : kv.fst = k
      · simp [upsertItem, storeKeys, upsertKeyList, h]
      · simp [upsertItem, storeKeys, upsertKeyList, h]
        simpa [storeKeys] using ih

theorem mem_upsertKeyList_iff (l : List String) (k q : String) :
    q ∈ upsertKeyList l k ↔ q ∈ l ∨ q = k := by
  induction l with
  | nil => simp [upsertKeyList]
  | cons x xs ih =>
      by_cases h : x = k
      · subst h
        rw [upsertKeyList, if_pos rfl]
        constructor
        · intro hq; exact Or.inl hq
        · rintro (hq | rfl)
          · exact hq
          · exact List.mem_cons_self _ _
      · simp only [upsertKeyList, if_neg h, List.mem_cons, ih]
        tauto

theorem mem_upsertKeyList_self (l : List String) (k : String) : k ∈ upsertKeyList l k := by
  rw [mem_upsertKeyList_iff]; exact Or.inr rfl

theorem upsertKeyList_of_mem (l : List String) (k : String) (h : k ∈ l) :
    upsertKeyList l k = l := by
  induction l with
  | nil => cases h
  | cons x xs ih =>
      by_cases hx : x = k
      · simp [upsertKeyList, hx]
      · have hxs : k ∈ xs := by
          rcases List.mem_cons.mp h with h1 | h1
          · exact absurd h1.symm hx
          · exact h1
        simp [upsertKeyList, hx, ih hxs]

theorem nodup_upsertKeyList (l : List String) (k : String) (h : l.Nodup) :
    (upsertKeyList l k).Nodup := by
  induction l with
  | nil => simp [upsertKeyList]
  | cons x xs ih =>
      rcases List.nodup_cons.mp h with ⟨hx, hxs⟩
      by_cases hk : x = k
      · simpa [upsertKeyList, hk] using h
      · rw [upsertKeyList, if_neg hk]
        refine List.nodup_cons.mpr ⟨?_, ih hxs⟩
        intro hmem
        rcases (mem_upsertKeyList_iff xs k x).mp hmem with h1 | h1
        · exact hx h1
        · exact hk h1

/-- Iterated upserts of a list of keys. -/
def upsertKeysAll : List String → List String → List String
  | l, [] => l
  | l, k :: ks => upsertKeysAll (upsertKeyList l k) ks

theorem mem_upsertKeysAll_of_mem (ks : List String) :
    ∀ (l : List String) (q : String), q ∈ l → q ∈ upsertKeysAll l ks := by
  induction ks with
  | nil => intro l q h; exact h
  | cons k ks ih =>
      intro l q h
      exact ih _ q ((mem_upsertKeyList_iff l k q).mpr (Or.inl h))

theorem mem_upsertKeysAll_of_mem_keys (ks : List String) :
    ∀ (l : List String) (k : String), k ∈ ks → k ∈ upsertKeysAll l ks := by
  induction ks with
  | nil => intro l k h; cases h
  | cons k2 ks ih =>
      intro l k h
      rcases List.mem_cons.mp h with rfl | h1
      · exact mem_upsertKeysAll_of_mem ks _ k (mem_upsertKeyList_self l k)
      · exact ih _ k h1

theorem upsertKeysAll_of_all_mem (ks : List String) :
    ∀ l : List String, (∀ k ∈ ks, k ∈ l) → upsertKeysAll l ks = l := by
  induction ks with
  | nil => intro l _; rfl
  | cons k ks ih =>
      intro l h
      have hk : k ∈ l := h k (List.mem_cons_self k ks)
      rw [upsertKeysAll, upsertKeyList_of_mem l k hk]
      exact ih l (fun q hq => h q (List.mem_cons_of_mem k hq))

theorem nodup_upsertKeysAll (ks : List String) :
    ∀ l : List String, l.Nodup → (upsertKeysAll l ks).Nodup := by
  induction ks with
  | nil => intro l h; exact h
  | cons k ks ih => intro l h; exact ih _ (nodup_upsertKeyList l k h)

/-! ### Lemmas about the attachment fan-out loop -/

theorem attach_key_inj (eid : String) (a b : Nat) (h : attach_key eid a = attach_key eid b) :
    a = b :=
  append_nat_inj (eid ++ "-") a b h

/-- The OCR messages the fan-out loop sends, in order, starting at the
0-based enumeration index `i`. -/
def ocr_messages (now : Nat) (pid : String) : Nat → List Attachment → List (String × OcrQueueMessage)
  | _, [] => []
  | i, att :: rest =>
      ("ocr-processing-queue",
        { processing_id := pid, file_uri := att.uri,
          filename := att.filename.getD ("attachment_" ++ toString (i + 1)),
          timestamp := now, action := "extract_text" })
        :: ocr_messages now pid (i + 1) rest

theorem ocr_messages_length (now : Nat) (pid : String) :
    ∀ (atts : List Attachment) (i : Nat), (ocr_messages now pid i atts).length = atts.length := by
  intro atts
  induction atts with
  | nil => intro i; rfl
  | cons a rest ih => intro i; simp [ocr_messages, ih]

theorem ocr_messages_mem (now : Nat) (pid : String) :
    ∀ (atts : List Attachment) (i : Nat), ∀ qm ∈ ocr_messages now pid i atts,
      qm.fst = "ocr-processing-queue" ∧ qm.snd.processing_id = pid
        ∧ qm.snd.action = "extract_text" := by
  intro atts
  induction atts with
  | nil => intro i qm hqm; cases hqm
  | cons a rest ih =>
      intro i qm hqm
      rcases List.mem_cons.mp hqm with rfl | h1
      · exact ⟨rfl, rfl, rfl⟩
      · exact ih (i + 1) qm h1

/-- The keys the fan-out loop writes, in order. -/
def attachKeysList (email_id : String) : Nat → List Attachment → List String
  | _, [] => []
  | i, _ :: rest => attach_key email_id (i + 1) :: attachKeysList email_id (i + 1) rest

theorem process_attachments_emails (now : Nat) (pid eid : String) :
    ∀ (atts : List Attachment) (i : Nat) (s : IngestionState),
      (process_attachments now pid eid i atts s).emails = s.emails := by
  intro atts
  induction atts with
  | nil => intro i s; rfl
  | cons a rest ih =>
      intro i s
      rw [process_attachments]
      rw [ih]
      rfl

theorem process_attachments_queue (now : Nat) (pid eid : String) :
    ∀ (atts : List Attachment) (i : Nat) (s : IngestionState),
      (process_attachments now pid eid i atts s).queue
        = s.queue ++ ocr_messages now pid i atts := by
  intro atts
  induction atts with
  | nil =>
      intro i s
      show s.queue = s.queue ++ ocr_messages now pid i []
      simp [ocr_messages]
  | cons a rest ih =>
      intro i s
      rw [process_attachments, ih, ocr_messages]
      simp [send_to_ocr_engine, send_to_service_bus, upsert_attachment, mk_attach_doc]

theorem process_attachments_keys (now : Nat) (pid eid : String) :
    ∀ (atts : List Attachment) (i : Nat) (s : IngestionState),
      storeKeys (process_attachments now pid eid i atts s).attachments
        = upsertKeysAll (storeKeys s.attachments) (attachKeysList eid i atts) := by
  intro atts
  induction atts with
  | nil => intro i s; rfl
  | cons a rest ih =>
      intro i s
      rw [process_attachments, ih, attachKeysList, upsertKeysAll]
      congr 1
      show storeKeys (upsertItem s.attachments (attach_key eid (i + 1)) _) = _
      exact storeKeys_upsertItem _ _ _

theorem process_attachments_readItem_other (now : Nat) (pid eid : String) :
    ∀ (atts : List Attachment) (i : Nat) (s : IngestionState) (k : String),
      (∀ j, j < atts.length → k ≠ attach_key eid (i + j + 1)) →
      readItem (process_attachments now pid eid i atts s).attachments k
        = readItem s.attachments k := by
  intro atts
  induction atts with
  | nil => intro i s k _; rfl
  | cons a rest ih =>
      intro i s k hk
      rw [process_attachments]
      rw [ih (i + 1) _ k ?_]
      · show readItem (upsertItem s.attachments (attach_key eid (i + 1)) _) k = _
        refine readItem_upsertItem_ne _ _ _ _ ?_
        have h0 := hk 0 (Nat.succ_pos _)
        simpa using h0
      · intro j hj
        have h1 := hk (j + 1) (Nat.succ_lt_succ hj)
        have harith : i + (j + 1) + 1 = i + 1 + j + 1 := by omega
        rwa [harith] at h1

theorem process_attachments_readItem (now : Nat) (pid eid : String) :
    ∀ (atts : List Attachment) (i : Nat) (s : IngestionState) (j : Nat) (hj : j < atts.length),
      readItem (process_attachments now pid eid i atts s).attachments
          (attach_key eid (i + j + 1))
        = some (mk_attach_doc eid pid (i + j) (atts.get ⟨j, hj⟩)) := by
  intro atts
  induction atts with
  | nil => intro i s j hj; exact absurd hj (by simp)
  | cons a rest ih =>
      intro i s j hj
      rw [process_attachments]
      cases j with
      | zero =>
          rw [process_attachments_readItem_other now pid eid rest (i + 1) _ _ ?_]
          · show readItem (upsertItem s.attachments (attach_key eid (i + 1)) _) _ = _
            have harith : i + 0 + 1 = i + 1 := by omega
            rw [harith]
            rw [readItem_upsertItem_self]
            have harith2 : i + 0 = i := by omega
            rw [harith2]
            rfl
          · intro j2 hj2 heq
            have := attach_key_inj eid _ _ heq
            omega
      | succ j2 =>
          have hj3 : j2 < rest.length := Nat.lt_of_succ_lt_succ hj
          have harith : i + (j2 + 1) + 1 = i + 1 + j2 + 1 := by omega
          have harith2 : i + (j2 + 1) = i + 1 + j2 := by omega
          rw [harith, harith2]
          rw [ih (i + 1) _ j2 hj3]
          rfl

/-! ### Coordinator characterization lemmas -/

/-- The status/timestamp rewrite `update_email_status` performs on a
master document. -/
def with_status (doc : MasterDoc) (st : String) (now : Nat) : MasterDoc :=
  { doc with status := st, updatedAt := now }

/-- Replacing the `Emails` container of a state. -/
def set_emails (s : IngestionState) (e : List (String × MasterDoc)) : IngestionState :=
  { s with emails := e }

theorem truthy_some_ne (p : String) (hp : p ≠ "") : truthy (some p) = true := by
  simp [truthy, hp]

theorem process_ingestion_message_email (now : Nat) (s : IngestionState) (m : IntakeMessage)
    (p : String) (hp : m.processing_id = some p) (hpne : p ≠ "")
    (hsrc : m.source_type = some "email") :
    process_ingestion_message now s m = process_email_ingestion now s p m := by
  unfold process_ingestion_message
  rw [hp, hsrc, truthy_some_ne p hpne]
  simp

theorem process_ingestion_message_file (now : Nat) (s : IngestionState) (m : IntakeMessage)
    (p : String) (hp : m.processing_id = some p) (hpne : p ≠ "")
    (hsrc : m.source_type = some "file") :
    process_ingestion_message now s m = process_file_ingestion now s p m := by
  unfold process_ingestion_message
  rw [hp, hsrc, truthy_some_ne p hpne]
  simp

theorem update_email_status_eq (s : IngestionState) (eid st : String) (now : Nat)
    (item : MasterDoc) (h : readItem s.emails eid = some item) :
    update_email_status s eid st now
      = some (set_emails s (upsertItem s.emails eid (with_status item st now))) := by
  unfold update_email_status
  rw [h]
  rfl

theorem email_master_doc_id (now : Nat) (p : String) (m : IntakeMessage) :
    (email_master_doc now p m).id = pyOr (m.email.getD {}).id p := rfl

theorem process_email_ingestion_empty (now : Nat) (s : IngestionState) (p : String)
    (m : IntakeMessage) (h : m.attachments.getD [] = []) :
    process_email_ingestion now s p m
      = (true, set_emails s
          (upsertItem
            (upsertItem s.emails (pyOr (m.email.getD {}).id p) (email_master_doc now p m))
            (pyOr (m.email.getD {}).id p)
            (with_status (email_master_doc now p m) "completed" now))) := by
  simp only [process_email_ingestion]
  rw [h]
  simp only [List.isEmpty_nil, if_true]
  rw [update_email_status_eq _ _ _ _ (email_master_doc now p m) ?_]
  · rfl
  · show readItem (upsertItem s.emails (email_master_doc now p m).id (email_master_doc now p m))
        (pyOr (m.email.getD {}).id p) = _
    rw [email_master_doc_id]
    exact readItem_upsertItem_self _ _ _

theorem process_email_ingestion_cons (now : Nat) (s : IngestionState) (p : String)
    (m : IntakeMessage) (h : m.attachments.getD [] ≠ []) :
    process_email_ingestion now s p m
      = (true, set_emails
          (process_attachments now p (pyOr (m.email.getD {}).id p) 0 (m.attachments.getD [])
            (upsert_email s (email_master_doc now p m)))
          (upsertItem
            (upsertItem s.emails (pyOr (m.email.getD {}).id p) (email_master_doc now p m))
            (pyOr (m.email.getD {}).id p)
            (with_status (email_master_doc now p m) "ocr_pending" now))) := by
  simp only [process_email_ingestion]
  rw [if_neg (by simpa [List.isEmpty_iff] using h)]
  rw [update_email_status_eq _ _ _ _ (email_master_doc now p m) ?_]
  · simp only [set_emails]
    congr 1
    rw [process_attachments_emails]
    rfl
  · rw [process_attachments_emails]
    show readItem (upsertItem s.emails (email_master_doc now p m).id (email_master_doc now p m))
        (pyOr (m.email.getD {}).id p) = _
    rw [email_master_doc_id]
    exact readItem_upsertItem_self _ _ _

/-! ### Claims about the ingestion coordinator -/

/-- C4: for every EMAIL intake message whose attachment list is empty,
`process_ingestion_message` marks the master document `"completed"`
(the COMPLETED state of the spec) and returns `true`, with no OCR
enqueue and no attachment document written. -/
theorem C4_zero_attachment_short_circuit (now : Nat) (s : IngestionState) (m : IntakeMessage)
    (p : String) (hp : m.processing_id = some p) (hpne : p ≠ "")
    (hsrc : m.source_type = some "email") (hatt : m.attachments.getD [] = []) :
    (process_ingestion_message now s m).fst = true
    ∧ (process_ingestion_message now s m).snd.queue = s.queue
    ∧ (process_ingestion_message now s m).snd.attachments = s.attachments
    ∧ (readItem (process_ingestion_message now s m).snd.emails
        (pyOr (m.email.getD {}).id p)).map MasterDoc.status = some "completed" := by
  rw [process_ingestion_message_email now s m p hp hpne hsrc,
      process_email_ingestion_empty now s p m hatt]
  refine ⟨rfl, rfl, rfl, ?_⟩
  show (readItem
      (upsertItem
        (upsertItem s.emails (pyOr (m.email.getD {}).id p) (email_master_doc now p m))
        (pyOr (m.email.getD {}).id p)
        (with_status (email_master_doc now p m) "completed" now))
      (pyOr (m.email.getD {}).id p)).map MasterDoc.status = some "completed"
  rw [readItem_upsertItem_self]
  rfl

/-- Concrete EMAIL intake with an empty attachment list. -/
def intakeC4 : IntakeMessage :=
  { processing_id := some "proc-4", source_type := some "email",
    email := some { id := some "email-4", subject := some "no docs" },
    attachments := some [] }

theorem C4_zero_attachment_short_circuit_witness :
    (intakeC4.processing_id = some "proc-4" ∧ "proc-4" ≠ ""
      ∧ intakeC4.source_type = some "email" ∧ intakeC4.attachments.getD [] = [])
    ∧ ((process_ingestion_message 0 {} intakeC4).fst = true
      ∧ (process_ingestion_message 0 {} intakeC4).snd.queue = IngestionState.queue {}
      ∧ (process_ingestion_message 0 {} intakeC4).snd.attachments = IngestionState.attachments {}
      ∧ (readItem (process_ingestion_message 0 {} intakeC4).snd.emails
          (pyOr (intakeC4.email.getD {}).id "proc-4")).map MasterDoc.status
        = some "completed") :=
  ⟨⟨rfl, by decide, rfl, rfl⟩,
   C4_zero_attachment_short_circuit 0 {} intakeC4 "proc-4" rfl (by decide) rfl rfl⟩

/-- C9: a FILE intake message with a missing (or empty) `file_uri` is
rejected with `false` and the state is untouched: no master document
write, no status change, no OCR enqueue. -/
theorem C9_file_without_blob_rejected (now : Nat) (s : IngestionState) (m : IntakeMessage)
    (p : String) (hp : m.processing_id = some p) (hpne : p ≠ "")
    (hsrc : m.source_type = some "file") (hu : truthy m.file_uri = false) :
    process_ingestion_message now s m = (false, s) := by
  rw [process_ingestion_message_file now s m p hp hpne hsrc]
  unfold process_file_ingestion
  rw [hu]
  simp

/-- Concrete FILE intake without a `file_uri`. -/
def intakeC9 : IntakeMessage :=
  { processing_id := some "proc-9", source_type := some "file",
    file_metadata := some { filename := some "x.pdf" } }

theorem C9_file_without_blob_rejected_witness :
    (intakeC9.processing_id = some "proc-9" ∧ "proc-9" ≠ ""
      ∧ intakeC9.source_type = some "file" ∧ truthy intakeC9.file_uri = false)
    ∧ process_ingestion_message 3 {} intakeC9 = (false, {}) :=
  ⟨⟨rfl, by decide, rfl, rfl⟩,
   C9_file_without_blob_rejected 3 {} intakeC9 "proc-9" rfl (by decide) rfl rfl⟩

/-- C10: an intake message whose `processing_id` is missing or empty,
or whose `source_type` is neither `"email"` nor `"file"` (including
absent), is rejected with `false` and the state is untouched. -/
theorem C10_unknown_message_rejected (now : Nat) (s : IngestionState) (m : IntakeMessage)
    (h : truthy m.processing_id = false
      ∨ (m.source_type ≠ some "email" ∧ m.source_type ≠ some "file")) :
    process_ingestion_message now s m = (false, s) := by
  unfold process_ingestion_message
  rcases h with h | ⟨h1, h2⟩
  · rw [h]
    simp
  · cases htruthy : truthy m.processing_id
    · simp
    · simp [if_neg h1, if_neg h2]

/-- Concrete intake with an unknown source type. -/
def intakeC10 : IntakeMessage :=
  { processing_id := some "proc-10", source_type := some "ftp" }

theorem C10_unknown_message_rejected_witness :
    (truthy intakeC10.processing_id = false
      ∨ (intakeC10.source_type ≠ some "email" ∧ intakeC10.source_type ≠ some "file"))
    ∧ process_ingestion_message 4 {} intakeC10 = (false, {}) :=
  ⟨Or.inr ⟨by decide, by decide⟩,
   C10_unknown_message_rejected 4 {} intakeC10 (Or.inr ⟨by decide, by decide⟩)⟩

theorem pem_keys_emails (now : Nat) (s : IngestionState) (p : String) (m : IntakeMessage) :
    storeKeys (process_email_ingestion now s p m).snd.emails
      = upsertKeyList (storeKeys s.emails) (pyOr (m.email.getD {}).id p) := by
  by_cases hatt : m.attachments.getD [] = []
  · rw [process_email_ingestion_empty now s p m hatt]
    show storeKeys (upsertItem (upsertItem s.emails _ _) _ _) = _
    rw [storeKeys_upsertItem, storeKeys_upsertItem]
    exact upsertKeyList_of_mem _ _ (mem_upsertKeyList_self _ _)
  · rw [process_email_ingestion_cons now s p m hatt]
    show storeKeys (upsertItem (upsertItem s.emails _ _) _ _) = _
    rw [storeKeys_upsertItem, storeKeys_upsertItem]
    exact upsertKeyList_of_mem _ _ (mem_upsertKeyList_self _ _)

theorem pem_keys_attachments (now : Nat) (s : IngestionState) (p : String) (m : IntakeMessage) :
    storeKeys (process_email_ingestion now s p m).snd.attachments
      = upsertKeysAll (storeKeys s.attachments)
          (attachKeysList (pyOr (m.email.getD {}).id p) 0 (m.attachments.getD [])) := by
  by_cases hatt : m.attachments.getD [] = []
  · rw [process_email_ingestion_empty now s p m hatt, hatt]
    rfl
  · rw [process_email_ingestion_cons now s p m hatt]
    show storeKeys (process_attachments now p _ 0 _ (upsert_email s _)).attachments = _
    rw [process_attachments_keys]
    rfl

/-- C2: an EMAIL intake with a non-empty attachment list of length N
upserts exactly the N child documents keyed `f"{email_id}-{i}"` for
i = 1..N (each carrying `attachmentNumber = i`), touches no other
attachment key, enqueues exactly N OCR messages (one per attachment, on
`ocr-processing-queue`, carrying the processing id), then marks the
master document `"ocr_pending"` (the OCR_PENDING state of the spec) and
returns `true`. -/
theorem C2_fanout (now : Nat) (s : IngestionState) (m : IntakeMessage) (p eid : String)
    (atts : List Attachment)
    (hp : m.processing_id = some p) (hpne : p ≠ "") (hsrc : m.source_type = some "email")
    (hatts : m.attachments = some atts) (hne : atts ≠ [])
    (heid : eid = pyOr (m.email.getD {}).id p) :
    (process_ingestion_message now s m).fst = true
    ∧ (∀ j, (hj : j < atts.length) →
        readItem (process_ingestion_message now s m).snd.attachments (attach_key eid (j + 1))
          = some (mk_attach_doc eid p j (atts.get ⟨j, hj⟩)))
    ∧ (∀ k, readItem (process_ingestion_message now s m).snd.attachments k
          ≠ readItem s.attachments k →
        ∃ j, j < atts.length ∧ k = attach_key eid (j + 1))
    ∧ (process_ingestion_message now s m).snd.queue = s.queue ++ ocr_messages now p 0 atts
    ∧ ((process_ingestion_message now s m).snd.queue).length = s.queue.length + atts.length
    ∧ (∀ qm ∈ ocr_messages now p 0 atts,
        qm.fst = "ocr-processing-queue" ∧ qm.snd.processing_id = p
          ∧ qm.snd.action = "extract_text")
    ∧ (readItem (process_ingestion_message now s m).snd.emails eid).map MasterDoc.status
        = some "ocr_pending" := by
  subst heid
  have hget : m.attachments.getD [] = atts := by rw [hatts]; rfl
  have hne2 : m.attachments.getD [] ≠ [] := by rw [hget]; exact hne
  rw [process_ingestion_message_email now s m p hp hpne hsrc,
      process_email_ingestion_cons now s p m hne2]
  refine ⟨rfl, ?_, ?_, ?_, ?_, ?_, ?_⟩
  · intro j hj
    show readItem (process_attachments now p _ 0 (m.attachments.getD [])
        (upsert_email s (email_master_doc now p m))).attachments _ = _
    rw [hget]
    have h1 := process_attachments_readItem now p (pyOr (m.email.getD {}).id p) atts 0
      (upsert_email s (email_master_doc now p m)) j hj
    rw [Nat.zero_add] at h1
    exact h1
  · intro k hk
    by_contra hcon
    push_neg at hcon
    apply hk
    show readItem (process_attachments now p _ 0 (m.attachments.getD [])
        (upsert_email s (email_master_doc now p m))).attachments k = _
    rw [hget]
    rw [process_attachments_readItem_other now p (pyOr (m.email.getD {}).id p) atts 0
      (upsert_email s (email_master_doc now p m)) k ?_]
    · rfl
    · intro j hj
      have h2 := hcon j hj
      rw [Nat.zero_add]
      exact h2
  · show (process_attachments now p _ 0 (m.attachments.getD [])
        (upsert_email s (email_master_doc now p m))).queue = _
    rw [hget, process_attachments_queue]
    rfl
  · show ((process_attachments now p _ 0 (m.attachments.getD [])
        (upsert_email s (email_master_doc now p m))).queue).length = _
    rw [hget, process_attachments_queue, List.length_append, ocr_messages_length]
    rfl
  · exact ocr_messages_mem now p atts 0
  · show (readItem (upsertItem (upsertItem s.emails _ _) _ _) _).map MasterDoc.status = _
    rw [readItem_upsertItem_self]
    rfl

/-- Concrete EMAIL intake with two attachments. -/
def attsC2 : List Attachment :=
  [ { uri := some "https://blob/a.pdf", filename := some "a.pdf" },
    { uri := some "https://blob/b.jpg", filename := some "b.jpg" } ]

def intakeC2 : IntakeMessage :=
  { processing_id := some "proc-2", source_type := some "email",
    email := some { id := some "e2", subject := some "Claim" },
    attachments := some attsC2 }

theorem C2_fanout_witness :
    (intakeC2.processing_id = some "proc-2" ∧ "proc-2" ≠ ""
      ∧ intakeC2.source_type = some "email"
      ∧ intakeC2.attachments = some attsC2 ∧ attsC2 ≠ []
      ∧ "e2" = pyOr (intakeC2.email.getD {}).id "proc-2")
    ∧ ((process_ingestion_message 0 {} intakeC2).fst = true
      ∧ (∀ j, (hj : j < attsC2.length) →
          readItem (process_ingestion_message 0 {} intakeC2).snd.attachments
              (attach_key "e2" (j + 1))
            = some (mk_attach_doc "e2" "proc-2" j (attsC2.get ⟨j, hj⟩)))
      ∧ (∀ k, readItem (process_ingestion_message 0 {} intakeC2).snd.attachments k
            ≠ readItem (IngestionState.attachments {}) k →
          ∃ j, j < attsC2.length ∧ k = attach_key "e2" (j + 1))
      ∧ (process_ingestion_message 0 {} intakeC2).snd.queue
          = IngestionState.queue {} ++ ocr_messages 0 "proc-2" 0 attsC2
      ∧ ((process_ingestion_message 0 {} intakeC2).snd.queue).length
          = (IngestionState.queue {}).length + attsC2.length
      ∧ (∀ qm ∈ ocr_messages 0 "proc-2" 0 attsC2,
          qm.fst = "ocr-processing-queue" ∧ qm.snd.processing_id = "proc-2"
            ∧ qm.snd.action = "extract_text")
      ∧ (readItem (process_ingestion_message 0 {} intakeC2).snd.emails "e2").map
          MasterDoc.status = some "ocr_pending") :=
  ⟨⟨rfl, by decide, rfl, rfl, by decide, by decide⟩,
   C2_fanout 0 {} intakeC2 "proc-2" "e2" attsC2 rfl (by decide) rfl rfl (by decide) (by decide)⟩

/-- C3: re-delivering the same EMAIL intake message leaves the document
store with the same set of record keys as a single delivery — every
write is an upsert keyed deterministically by the unit id (master) and
by the unit id plus 1-based position (children) — and introduces no
duplicate keys. -/
theorem C3_redelivery_idempotent (t1 t2 : Nat) (s : IngestionState) (m : IntakeMessage)
    (p : String) (hp : m.processing_id = some p) (hpne : p ≠ "")
    (hsrc : m.source_type = some "email") :
    storeKeys (process_ingestion_message t2 (process_ingestion_message t1 s m).snd m).snd.emails
      = storeKeys (process_ingestion_message t1 s m).snd.emails
    ∧ storeKeys
        (process_ingestion_message t2 (process_ingestion_message t1 s m).snd m).snd.attachments
      = storeKeys (process_ingestion_message t1 s m).snd.attachments
    ∧ ((storeKeys s.emails).Nodup →
        (storeKeys
          (process_ingestion_message t2
            (process_ingestion_message t1 s m).snd m).snd.emails).Nodup)
    ∧ ((storeKeys s.attachments).Nodup →
        (storeKeys
          (process_ingestion_message t2
            (process_ingestion_message t1 s m).snd m).snd.attachments).Nodup) := by
  rw [process_ingestion_message_email t1 s m p hp hpne hsrc,
      process_ingestion_message_email t2 _ m p hp hpne hsrc]
  refine ⟨?_, ?_, ?_, ?_⟩
  · rw [pem_keys_emails, pem_keys_emails]
    exact upsertKeyList_of_mem _ _ (mem_upsertKeyList_self _ _)
  · rw [pem_keys_attachments, pem_keys_attachments]
    apply upsertKeysAll_of_all_mem
    intro k hk
    exact mem_upsertKeysAll_of_mem_keys _ _ k hk
  · intro hnd
    rw [pem_keys_emails, pem_keys_emails]
    exact nodup_upsertKeyList _ _ (nodup_upsertKeyList _ _ hnd)
  · intro hnd
    rw [pem_keys_attachments, pem_keys_attachments]
    exact nodup_upsertKeysAll _ _ (nodup_upsertKeysAll _ _ hnd)

/-- Concrete EMAIL intake with one attachment, redelivered with a later
timestamp. -/
def intakeC3 : IntakeMessage :=
  { processing_id := some "proc-3", source_type := some "email",
    email := some { id := some "e3" },
    attachments := some [{ uri := some "https://blob/c.pdf", filename := some "c.pdf" }] }

theorem C3_redelivery_idempotent_witness :
    (intakeC3.processing_id = some "proc-3" ∧ "proc-3" ≠ ""
      ∧ intakeC3.source_type = some "email")
    ∧ (storeKeys (process_ingestion_message 2
          (process_ingestion_message 1 {} intakeC3).snd intakeC3).snd.emails
        = storeKeys (process_ingestion_message 1 {} intakeC3).snd.emails
      ∧ storeKeys (process_ingestion_message 2
          (process_ingestion_message 1 {} intakeC3).snd intakeC3).snd.attachments
        = storeKeys (process_ingestion_message 1 {} intakeC3).snd.attachments
      ∧ ((storeKeys (IngestionState.emails {})).Nodup →
          (storeKeys (process_ingestion_message 2
            (process_ingestion_message 1 {} intakeC3).snd intakeC3).snd.emails).Nodup)
      ∧ ((storeKeys (IngestionState.attachments {})).Nodup →
          (storeKeys (process_ingestion_message 2
            (process_ingestion_message 1 {} intakeC3).snd intakeC3).snd.attachments).Nodup)) :=
  ⟨⟨rfl, by decide, rfl⟩,
   C3_redelivery_idempotent 1 2 {} intakeC3 "proc-3" rfl (by decide) rfl⟩

/-! ### OCR and classification stage lemmas -/

theorem save_ocr_result_queue (db : PipelineDB) (p u t c : String) (pc pt : Nat) :
    (save_ocr_result db p u t c pc pt).queue = db.queue := by
  unfold save_ocr_result
  cases find_processing_record db p <;> rfl

theorem send_to_document_classifier_ocr_results (now : Nat) (db : PipelineDB)
    (p u t : String) :
    (send_to_document_classifier now db p u t).ocr_results = db.ocr_results := by
  unfold send_to_document_classifier
  by_cases h : pyStripEmpty t = true <;> simp [h]

theorem save_classification_result_records (db : PipelineDB) (p u : String)
    (res : ClassificationDict) :
    (save_classification_result db p u res).processing_records = db.processing_records := by
  unfold save_classification_result
  cases find_processing_record db p <;> rfl

theorem update_processing_status_classifications (now : Nat) (db : PipelineDB)
    (p st : String) :
    (update_processing_status now db p st).document_classifications
      = db.document_classifications := rfl

theorem find_set_status_first (pid st : String) (now : Nat) :
    ∀ (l : List ProcessingRecord) (r : ProcessingRecord),
      l.find? (fun q => q.unique_processing_id == pid) = some r →
      (set_status_first l pid st now).find? (fun q => q.unique_processing_id == pid)
        = some { r with status := st, updated_at := now } := by
  intro l
  induction l with
  | nil => intro r h; simp [List.find?] at h
  | cons a rest ih =>
      intro r h
      by_cases ha : a.unique_processing_id = pid
      · have hpred : (fun q : ProcessingRecord => q.unique_processing_id == pid) a = true := by
          simp [ha]
        rw [List.find?_cons_of_pos (p := fun q => q.unique_processing_id == pid) rest hpred] at h
        injection h with h2
        subst h2
        simp only [set_status_first]
        rw [if_pos ha]
        apply List.find?_cons_of_pos
        simp [ha]
      · have hpred : ¬ ((fun q : ProcessingRecord => q.unique_processing_id == pid) a = true) := by
          simp [ha]
        rw [List.find?_cons_of_neg (p := fun q => q.unique_processing_id == pid) rest hpred] at h
        simp only [set_status_first]
        rw [if_neg ha]
        rw [List.find?_cons_of_neg (p := fun q : ProcessingRecord => q.unique_processing_id == pid)
          (set_status_first rest pid st now) hpred]
        exact ih r h

theorem process_ocr_message_run (cap : OcrCapability) (now : Nat) (db : PipelineDB)
    (m : OcrStageMessage) (p u path text conf : String) (pages ptime : Nat)
    (hp : m.processing_id = some p) (hpne : p ≠ "") (hu : m.file_uri = some u) (hune : u ≠ "")
    (hdl : cap.download u (m.filename.getD "unknown") = some path)
    (hex : cap.extract path (m.filename.getD "unknown") = (text, conf, pages, ptime)) :
    process_ocr_message cap now db m
      = (true, send_to_document_classifier now
          (save_ocr_result db p u text conf pages ptime) p u text) := by
  simp only [process_ocr_message, hp, hu, truthy_some_ne p hpne, truthy_some_ne u hune,
    Bool.and_self, Option.getD_some, if_true, hdl, hex]

/-! ### Claims about the OCR stage -/

/-- C5: for every OCR message handled to completion with the parent
record present, the persisted `OCRResult` row has status `"completed"`
exactly when the extracted text is non-empty after trimming (else
`"failed"`), and a classification message is enqueued exactly when the
text is non-empty after trimming, its `extracted_text` capped to the
first 10000 characters. -/
theorem C5_ocr_result_and_forwarding (cap : OcrCapability) (now : Nat) (db : PipelineDB)
    (m : OcrStageMessage) (p u path text conf : String) (pages ptime : Nat)
    (r : ProcessingRecord)
    (hp : m.processing_id = some p) (hpne : p ≠ "") (hu : m.file_uri = some u) (hune : u ≠ "")
    (hdl : cap.download u (m.filename.getD "unknown") = some path)
    (hex : cap.extract path (m.filename.getD "unknown") = (text, conf, pages, ptime))
    (hr : find_processing_record db p = some r) :
    (process_ocr_message cap now db m).fst = true
    ∧ (process_ocr_message cap now db m).snd.ocr_results
      = db.ocr_results ++
        [{ processing_record_id := r.id, file_uri := u, extracted_text := text,
           confidence_score := conf, page_count := pages, processing_time_seconds := ptime,
           status := if pyStripEmpty text then "failed" else "completed" }]
    ∧ (pyStripEmpty text = true → (process_ocr_message cap now db m).snd.queue = db.queue)
    ∧ (pyStripEmpty text = false → (process_ocr_message cap now db m).snd.queue
        = db.queue ++
          [("document-classification-queue",
            { processing_id := p, file_uri := u, extracted_text := text.take 10000,
              timestamp := now, action := "classify_document" })]) := by
  rw [process_ocr_message_run cap now db m p u path text conf pages ptime
    hp hpne hu hune hdl hex]
  refine ⟨rfl, ?_, ?_, ?_⟩
  · rw [send_to_document_classifier_ocr_results]
    unfold save_ocr_result
    rw [hr]
  · intro ht
    show (send_to_document_classifier now _ p u text).queue = _
    unfold send_to_document_classifier
    rw [if_pos ht]
    exact save_ocr_result_queue db p u text conf pages ptime
  · intro ht
    show (send_to_document_classifier now _ p u text).queue = _
    unfold send_to_document_classifier
    rw [if_neg (by simp [ht])]
    show (save_ocr_result db p u text conf pages ptime).queue ++ _ = _
    rw [save_ocr_result_queue]

/-- Concrete OCR capability and database for the C5 witness: the
extractor finds text. -/
def capC5 : OcrCapability :=
  { download := fun _ _ => some "/tmp/f5", extract := fun _ _ => ("hello world", "0.9", 1, 2) }

def recC5 : ProcessingRecord :=
  { id := 7, unique_processing_id := "p5", source_type := "email",
    status := "ocr_pending", num_attachments := 1, updated_at := 0 }

def dbC5 : PipelineDB := { processing_records := [recC5] }

def msgC5 : OcrStageMessage :=
  { processing_id := some "p5", file_uri := some "https://blob/a.pdf",
    filename := some "a.pdf" }

theorem C5_ocr_result_and_forwarding_witness :
    (msgC5.processing_id = some "p5" ∧ "p5" ≠ ""
      ∧ msgC5.file_uri = some "https://blob/a.pdf" ∧ "https://blob/a.pdf" ≠ ""
      ∧ capC5.download "https://blob/a.pdf" (msgC5.filename.getD "unknown") = some "/tmp/f5"
      ∧ capC5.extract "/tmp/f5" (msgC5.filename.getD "unknown") = ("hello world", "0.9", 1, 2)
      ∧ find_processing_record dbC5 "p5" = some recC5)
    ∧ ((process_ocr_message capC5 9 dbC5 msgC5).fst = true
      ∧ (process_ocr_message capC5 9 dbC5 msgC5).snd.ocr_results
        = dbC5.ocr_results ++
          [{ processing_record_id := recC5.id, file_uri := "https://blob/a.pdf",
             extracted_text := "hello world", confidence_score := "0.9", page_count := 1,
             processing_time_seconds := 2,
             status := if pyStripEmpty "hello world" then "failed" else "completed" }]
      ∧ (pyStripEmpty "hello world" = true → (process_ocr_message capC5 9 dbC5 msgC5).snd.queue
          = dbC5.queue)
      ∧ (pyStripEmpty "hello world" = false → (process_ocr_message capC5 9 dbC5 msgC5).snd.queue
          = dbC5.queue ++
            [("document-classification-queue",
              { processing_id := "p5", file_uri := "https://blob/a.pdf",
                extracted_text := "hello world".take 10000, timestamp := 9,
                action := "classify_document" })])) :=
  ⟨⟨rfl, by decide, rfl, by decide, rfl, rfl, by decide⟩,
   C5_ocr_result_and_forwarding capC5 9 dbC5 msgC5 "p5" "https://blob/a.pdf" "/tmp/f5"
     "hello world" "0.9" 1 2 recC5 rfl (by decide) rfl (by decide) rfl rfl (by decide)⟩

/-- Concrete fixtures for C8: the database has no ProcessingRecord at
all, yet the OCR message downloads and extracts fine. -/
def capC8 : OcrCapability :=
  { download := fun _ _ => some "/tmp/f8", extract := fun _ _ => ("hello", "0.9", 1, 0) }

def dbC8 : PipelineDB := {}

def msgC8 : OcrStageMessage :=
  { processing_id := some "p8", file_uri := some "https://blob/x.pdf",
    filename := some "x.pdf" }

/-- C8 counterexample: an OCR message whose `unitId` has no
ProcessingRecord is NOT dead-lettered — `process_ocr_message` still
returns `true`, the worker completes the message as a success, and no
OCRResult is persisted (the orphan result is silently dropped while a
classification message is still enqueued). -/
theorem C8_counterexample :
    (ocr_worker_outcome capC8 0 dbC8 msgC8).fst = MessageOutcome.completed
    ∧ MessageOutcome.completed ≠ MessageOutcome.deadlettered
    ∧ (process_ocr_message capC8 0 dbC8 msgC8).fst = true
    ∧ (process_ocr_message capC8 0 dbC8 msgC8).snd.ocr_results = []
    ∧ ((process_ocr_message capC8 0 dbC8 msgC8).snd.queue).length = 1 := by
  refine ⟨rfl, by decide, rfl, rfl, rfl⟩

/-- C8 amended: for an OCR message whose `unitId` has no ProcessingRecord
(and whose download succeeds), the anomaly is only logged: no OCRResult
row is persisted, but the handler still returns `true`, so the worker
completes the message as a success rather than dead-lettering it, and a
classification message is still enqueued whenever text was extracted. -/
theorem C8_amended_orphan_completes (cap : OcrCapability) (now : Nat) (db : PipelineDB)
    (m : OcrStageMessage) (p u path text conf : String) (pages ptime : Nat)
    (hp : m.processing_id = some p) (hpne : p ≠ "") (hu : m.file_uri = some u) (hune : u ≠ "")
    (hdl : cap.download u (m.filename.getD "unknown") = some path)
    (hex : cap.extract path (m.filename.getD "unknown") = (text, conf, pages, ptime))
    (hr : find_processing_record db p = none) :
    (process_ocr_message cap now db m).fst = true
    ∧ (process_ocr_message cap now db m).snd.ocr_results = db.ocr_results
    ∧ (ocr_worker_outcome cap now db m).fst = MessageOutcome.completed
    ∧ (pyStripEmpty text = false → (process_ocr_message cap now db m).snd.queue
        = db.queue ++
          [("document-classification-queue",
            { processing_id := p, file_uri := u, extracted_text := text.take 10000,
              timestamp := now, action := "classify_document" })]) := by
  have hrun := process_ocr_message_run cap now db m p u path text conf pages ptime
    hp hpne hu hune hdl hex
  have hsave : save_ocr_result db p u text conf pages ptime = db := by
    unfold save_ocr_result
    rw [hr]
  refine ⟨by rw [hrun], ?_, ?_, ?_⟩
  · rw [hrun]
    show (send_to_document_classifier now _ p u text).ocr_results = _
    rw [send_to_document_classifier_ocr_results, hsave]
  · unfold ocr_worker_outcome
    rw [hrun]
    rfl
  · intro ht
    rw [hrun]
    show (send_to_document_classifier now _ p u text).queue = _
    unfold send_to_document_classifier
    rw [if_neg (by simp [ht]), hsave]

theorem C8_amended_orphan_completes_witness :
    (msgC8.processing_id = some "p8" ∧ "p8" ≠ ""
      ∧ msgC8.file_uri = some "https://blob/x.pdf" ∧ "https://blob/x.pdf" ≠ ""
      ∧ capC8.download "https://blob/x.pdf" (msgC8.filename.getD "unknown") = some "/tmp/f8"
      ∧ capC8.extract "/tmp/f8" (msgC8.filename.getD "unknown") = ("hello", "0.9", 1, 0)
      ∧ find_processing_record dbC8 "p8" = none)
    ∧ ((process_ocr_message capC8 6 dbC8 msgC8).fst = true
      ∧ (process_ocr_message capC8 6 dbC8 msgC8).snd.ocr_results = dbC8.ocr_results
      ∧ (ocr_worker_outcome capC8 6 dbC8 msgC8).fst = MessageOutcome.completed
      ∧ (pyStripEmpty "hello" = false → (process_ocr_message capC8 6 dbC8 msgC8).snd.queue
          = dbC8.queue ++
            [("document-classification-queue",
              { processing_id := "p8", file_uri := "https://blob/x.pdf",
                extracted_text := "hello".take 10000, timestamp := 6,
                action := "classify_document" })])) :=
  ⟨⟨rfl, by decide, rfl, by decide, rfl, rfl, rfl⟩,
   C8_amended_orphan_completes capC8 6 dbC8 msgC8 "p8" "https://blob/x.pdf" "/tmp/f8"
     "hello" "0.9" 1 0 rfl (by decide) rfl (by decide) rfl rfl rfl⟩

/-! ### Claims about the classification stage and the status setters -/

theorem process_classification_message_run (classify : String → Except String ClassificationDict)
    (now : Nat) (db : PipelineDB) (m : ClassificationStageMessage) (p u : String)
    (hp : m.processing_id = some p) (hpne : p ≠ "") (hu : m.file_uri = some u)
    (hune : u ≠ "") :
    process_classification_message classify now db m
      = (true, update_processing_status now
          (save_classification_result db p u
            (classify_document classify (m.extracted_text.getD ""))) p "completed") := by
  simp only [process_classification_message, hp, hu, truthy_some_ne p hpne,
    truthy_some_ne u hune, Bool.and_self, Option.getD_some, if_true]

/-- C6: when the classification capability call fails, the stage
persists a result row whose document type is the UNCLASSIFIED fallback
(the literal `"Unknown"` in the source) with confidence `0.0` (persisted
as the string `"0.0"`), the exception does not escape the handler, and
the handler still returns `true`. -/
theorem C6_capability_failure_recorded (classify : String → Except String ClassificationDict)
    (now : Nat) (db : PipelineDB) (m : ClassificationStageMessage) (p u text e : String)
    (r : ProcessingRecord)
    (hp : m.processing_id = some p) (hpne : p ≠ "") (hu : m.file_uri = some u) (hune : u ≠ "")
    (htext : m.extracted_text.getD "" = text)
    (hfail : classify (if text.length > 8000 then text.take 8000 ++ "..." else text)
      = Except.error e)
    (hr : find_processing_record db p = some r) :
    (process_classification_message classify now db m).fst = true
    ∧ (process_classification_message classify now db m).snd.document_classifications
      = db.document_classifications ++
        [{ processing_record_id := r.id, file_uri := u, document_type := "Unknown",
           classification_confidence := "0.0", extracted_entities := "[]",
           risk_assessment := "Unknown", priority_level := "Low" }] := by
  have hrun := process_classification_message_run classify now db m p u hp hpne hu hune
  rw [htext] at hrun
  have hcd : classify_document classify text
      = { document_type := some "Unknown", confidence := some "0.0",
          entities := some "[]", risk_assessment := some "Unknown",
          priority := some "Low", error := some e } := by
    simp only [classify_document, hfail]
  refine ⟨by rw [hrun], ?_⟩
  rw [hrun]
  show (update_processing_status now (save_classification_result db p u _) p
      "completed").document_classifications = _
  rw [update_processing_status_classifications, hcd]
  unfold save_classification_result
  rw [hr]
  rfl

/-- Concrete fixtures for the C6 witness: the capability fails with a
quota error. -/
def classifyC6 : String → Except String ClassificationDict :=
  fun _ => Except.error "quota exceeded"

def recC6 : ProcessingRecord :=
  { id := 11, unique_processing_id := "p6", source_type := "email",
    status := "ocr_pending", num_attachments := 1, updated_at := 0 }

def dbC6 : PipelineDB := { processing_records := [recC6] }

def msgC6 : ClassificationStageMessage :=
  { processing_id := some "p6", file_uri := some "https://blob/b.pdf",
    extracted_text := some "some text" }

theorem C6_capability_failure_recorded_witness :
    (msgC6.processing_id = some "p6" ∧ "p6" ≠ ""
      ∧ msgC6.file_uri = some "https://blob/b.pdf" ∧ "https://blob/b.pdf" ≠ ""
      ∧ msgC6.extracted_text.getD "" = "some text"
      ∧ classifyC6 (if ("some text" : String).length > 8000
          then ("some text" : String).take 8000 ++ "..." else "some text")
        = Except.error "quota exceeded"
      ∧ find_processing_record dbC6 "p6" = some recC6)
    ∧ ((process_classification_message classifyC6 4 dbC6 msgC6).fst = true
      ∧ (process_classification_message classifyC6 4 dbC6 msgC6).snd.document_classifications
        = dbC6.document_classifications ++
          [{ processing_record_id := recC6.id, file_uri := "https://blob/b.pdf",
             document_type := "Unknown", classification_confidence := "0.0",
             extracted_entities := "[]", risk_assessment := "Unknown",
             priority_level := "Low" }]) :=
  ⟨⟨rfl, by decide, rfl, by decide, rfl, rfl, by decide⟩,
   C6_capability_failure_recorded classifyC6 4 dbC6 msgC6 "p6" "https://blob/b.pdf"
     "some text" "quota exceeded" recC6 rfl (by decide) rfl (by decide) rfl rfl (by decide)⟩

/-- Concrete fixtures for C1: a unit with two attachments, of which
only this one classification message has been processed; the capability
succeeds. -/
def clsOkC1 : String → Except String ClassificationDict :=
  fun _ => Except.ok { document_type := some "Contract Document", confidence := some "0.9" }

def recC1 : ProcessingRecord :=
  { id := 1, unique_processing_id := "p1", source_type := "email",
    status := "ocr_pending", num_attachments := 2, updated_at := 0 }

def dbC1 : PipelineDB := { processing_records := [recC1] }

def msgC1 : ClassificationStageMessage :=
  { processing_id := some "p1", file_uri := some "https://blob/a.pdf",
    extracted_text := some "liability policy text" }

/-- C1 counterexample: the unit has `num_attachments = 2` and no result
row for its sibling, yet processing the single classification message
already sets the record status to `"completed"`: the transition is not
guarded by the sibling-terminal condition the spec states (only one
terminal result exists for the unit afterwards, fewer than its two
attachments). -/
theorem C1_counterexample :
    (process_classification_message clsOkC1 5 dbC1 msgC1).fst = true
    ∧ (find_processing_record (process_classification_message clsOkC1 5 dbC1 msgC1).snd
        "p1").map ProcessingRecord.status = some "completed"
    ∧ (find_processing_record (process_classification_message clsOkC1 5 dbC1 msgC1).snd
        "p1").map ProcessingRecord.num_attachments = some 2
    ∧ ((process_classification_message clsOkC1 5 dbC1 msgC1).snd.document_classifications).length
        = 1
    ∧ ((process_classification_message clsOkC1 5 dbC1 msgC1).snd.ocr_results).length = 0
    ∧ ¬ spec_all_siblings_terminal (process_classification_message clsOkC1 5 dbC1 msgC1).snd
        { recC1 with status := "completed", updated_at := 5 } := by
  refine ⟨rfl, rfl, rfl, rfl, rfl, by decide⟩

/-- C1 amended: the Classification Stage sets the owning unit status to
`"completed"` unconditionally on every successfully handled
classification message, without consulting sibling attachments: whenever
the record exists and the message carries a processing id and file uri,
the handler returns `true` and the stored status afterwards is
`"completed"`. -/
theorem C1_amended_unconditional_completion
    (classify : String → Except String ClassificationDict)
    (now : Nat) (db : PipelineDB) (m : ClassificationStageMessage) (p u : String)
    (r : ProcessingRecord)
    (hp : m.processing_id = some p) (hpne : p ≠ "") (hu : m.file_uri = some u) (hune : u ≠ "")
    (hr : find_processing_record db p = some r) :
    (process_classification_message classify now db m).fst = true
    ∧ find_processing_record (process_classification_message classify now db m).snd p
      = some { r with status := "completed", updated_at := now } := by
  have hrun := process_classification_message_run classify now db m p u hp hpne hu hune
  refine ⟨by rw [hrun], ?_⟩
  rw [hrun]
  show find_processing_record (update_processing_status now
      (save_classification_result db p u _) p "completed") p = _
  unfold find_processing_record update_processing_status
  rw [save_classification_result_records]
  unfold find_processing_record at hr
  exact find_set_status_first p "completed" now db.processing_records r hr

theorem C1_amended_unconditional_completion_witness :
    (msgC1.processing_id = some "p1" ∧ "p1" ≠ ""
      ∧ msgC1.file_uri = some "https://blob/a.pdf" ∧ "https://blob/a.pdf" ≠ ""
      ∧ find_processing_record dbC1 "p1" = some recC1)
    ∧ ((process_classification_message clsOkC1 5 dbC1 msgC1).fst = true
      ∧ find_processing_record (process_classification_message clsOkC1 5 dbC1 msgC1).snd "p1"
        = some { recC1 with status := "completed", updated_at := 5 }) :=
  ⟨⟨rfl, by decide, rfl, by decide, by decide⟩,
   C1_amended_unconditional_completion clsOkC1 5 dbC1 msgC1 "p1" "https://blob/a.pdf"
     recC1 rfl (by decide) rfl (by decide) (by decide)⟩

/-- Concrete fixtures for C7: a master document already in the terminal
`"completed"` state, and a processing record already `"completed"`. -/
def docC7 : MasterDoc :=
  { id := "e7", processingId := "p7", sourceType := "email", attachmentCount := 0,
    status := "completed", createdAt := 0, updatedAt := 0 }

def stateC7 : IngestionState := { emails := [("e7", docC7)] }

/-- C7 counterexample: `update_email_status` moves a unit whose stored
status is the terminal `"completed"` back to `"ocr_pending"` — the
claimed terminal-state no-op guard does not exist, and the stored
status changes. -/
theorem C7_counterexample :
    docC7.status = "completed"
    ∧ (update_email_status stateC7 "e7" "ocr_pending" 7).map
        (fun s2 => (readItem s2.emails "e7").map MasterDoc.status)
      = some (some "ocr_pending") :=
  ⟨rfl, rfl⟩

/-- C7 amended: both status setters overwrite the stored status
unconditionally with the requested value (refreshing the update
timestamp); there is no terminal-state guard, so a `"completed"` or
`"failed"` unit can be moved to any status by a later update. -/
theorem C7_amended_unconditional_overwrite (s : IngestionState) (eid st : String) (now : Nat)
    (doc : MasterDoc) (h : readItem s.emails eid = some doc)
    (now2 : Nat) (db : PipelineDB) (p st2 : String) (r : ProcessingRecord)
    (hr : find_processing_record db p = some r) :
    (update_email_status s eid st now).map (fun s2 => readItem s2.emails eid)
      = some (some (with_status doc st now))
    ∧ find_processing_record (update_processing_status now2 db p st2) p
      = some { r with status := st2, updated_at := now2 } := by
  constructor
  · rw [update_email_status_eq s eid st now doc h]
    show some (readItem (upsertItem s.emails eid (with_status doc st now)) eid) = _
    rw [readItem_upsertItem_self]
  · unfold find_processing_record update_processing_status
    unfold find_processing_record at hr
    exact find_set_status_first p st2 now2 db.processing_records r hr

def recC7 : ProcessingRecord :=
  { id := 3, unique_processing_id := "p7", source_type := "file",
    status := "completed", num_attachments := 0, updated_at := 0 }

def dbC7 : PipelineDB := { processing_records := [recC7] }

theorem C7_amended_unconditional_overwrite_witness :
    (readItem stateC7.emails "e7" = some docC7
      ∧ find_processing_record dbC7 "p7" = some recC7)
    ∧ ((update_email_status stateC7 "e7" "ocr_pending" 7).map
          (fun s2 => readItem s2.emails "e7")
        = some (some (with_status docC7 "ocr_pending" 7))
      ∧ find_processing_record (update_processing_status 8 dbC7 "p7" "processing") "p7"
        = some { recC7 with status := "processing", updated_at := 8 }) :=
  ⟨⟨by decide, by decide⟩,
   C7_amended_unconditional_overwrite stateC7 "e7" "ocr_pending" 7 docC7 (by decide)
     8 dbC7 "p7" "processing" recC7 (by decide)⟩
